import Mathlib

/-!
A shallow embedding of the turn orchestration engine of the agentic-tale
backend (`src/backend/app/services/game_engine.py`, together with the
response-building helper of `src/backend/app/routers/story.py`), and proofs
of the behavioural properties its specification states.

The external text- and image-generation services of `llm_factory.py` are
modelled by an oracle structure of pure response functions from the prompt
pair the engine sends; `call_llm` and `generate_image_url` swallow provider
exceptions and return an empty string / empty object, so a provider failure
is represented by an oracle that returns those empty values.  Python
exceptions that escape the engine (the `IndexError` of an empty roster) and
`None` returns are modelled with `Option` / explicit outcome constructors.
-/

namespace AgenticTale

/-- `Agent` (game_engine.py, lines 35-55): a cast member with an
`is_active` flag marking participation in the round-robin rotation. -/
structure Agent where
  name : String
  role : String
  description : String
  personality : String
  is_active : Bool := true
  deriving DecidableEq

/-- `StoryState` (game_engine.py, lines 58-81): the persistent world state. -/
structure StoryState where
  location : String := "Startpunkt"
  inventory : List String := []
  current_quest : String := "Erkunde die Welt"
  active_threats : List String := []
  deriving DecidableEq

/-- `StoryState.to_string` (game_engine.py, lines 83-91). -/
def StoryState.to_string (s : StoryState) : String :=
  "Ort: " ++ s.location ++ " | Inventar: " ++ String.intercalate ", " s.inventory
    ++ " | Ziel: " ++ s.current_quest

/-- `GameSession` (game_engine.py, lines 94-129): one running game. -/
structure GameSession where
  session_id : String
  setting : String
  agents : List Agent
  visual_style : String
  state : StoryState
  narrative_history : List String
  plot_summary : String
  turn_count : Nat
  last_image_url : String
  deriving DecidableEq

/-- `GameSession.__init__` (game_engine.py, lines 104-129). -/
def GameSession.init (session_id : String) (setting : String) (agents : List Agent)
    (style : String) : GameSession where
  session_id := session_id
  setting := setting
  agents := agents
  visual_style := style
  state := {}
  narrative_history := []
  plot_summary := "Die Geschichte beginnt: " ++ setting
  turn_count := 0
  last_image_url := ""

/-- `GameSession.get_context_for_llm` (game_engine.py, lines 131-147).
Python `narrative_history[-3:]` is `drop (length - 3)`: the last three
entries, or the whole list when it has fewer than three. -/
def GameSession.get_context_for_llm (g : GameSession) : String :=
  let recent_prose :=
    String.intercalate "\n\n" (g.narrative_history.drop (g.narrative_history.length - 3))
  "--- STORY STATUS ---\n" ++ g.state.to_string ++ "\n"
    ++ "--- ZUSAMMENFASSUNG ---\n" ++ g.plot_summary ++ "\n"
    ++ "--- AKTUELLE SZENE ---\n" ++ recent_prose

/-- `GameSession.get_agent` (game_engine.py, lines 149-159). -/
def GameSession.get_agent (g : GameSession) (name : String) : Option Agent :=
  g.agents.find? (fun a => a.name == name)

/-- `GameSession.rotate_active_actor` (game_engine.py, lines 161-185):
filter the roster to the `is_active` agents, fall back to the full roster
when that filter is empty, and pick index `turn_count % len`.  The Python
`IndexError` raised on an empty roster is modelled by `none` (then
`turn_count % 0 = turn_count` is out of bounds for the empty list). -/
def GameSession.rotate_active_actor (g : GameSession) : Option Agent :=
  let eligibles := g.agents.filter (fun a => a.is_active)
  let actives := if eligibles.isEmpty then g.agents else eligibles
  actives[g.turn_count % actives.length]?

/-- Python truthiness of an optional string (`if value:`): both `None` and
the empty string are falsy. -/
def pyTruthy : Option String → Bool
  | none => false
  | some s => !s.isEmpty

/-- Python `value or default` for an optional string operand. -/
def pyOrDefault (v : Option String) (dflt : String) : String :=
  match v with
  | none => dflt
  | some s => if s.isEmpty then dflt else s

/-- Python f-string interpolation of an optional string: `None` renders as
the text "None". -/
def pyShow : Option String → String
  | none => "None"
  | some s => s

/-- The structured GAME_MASTER response of turn step 3 (game_engine.py,
lines 316-325).  `call_llm` in JSON mode returns a parsed object, or the
empty object on provider failure; a field that is missing or JSON `null`
reads as `none` through `dict.get`.  The all-default value therefore models
both the empty object and a malformed response. -/
structure GMDelta where
  new_location : Option String := none
  inventory_changes : List String := []
  quest_update : Option String := none
  success : Bool := false
  deriving DecidableEq

/-- Lines 327-332 of `process_turn`: apply the GAME_MASTER delta to the
story state.  Python tests `if gm_data.get("new_location"):` — a truthiness
check, so a field that is missing, `null` or the empty string leaves the
state unchanged.  Inventory and threats are never touched by this stage
(`# (Inventar-Logik hier vereinfacht)`). -/
def applyGmData (st : StoryState) (gm_data : GMDelta) : StoryState :=
  let st1 :=
    if pyTruthy gm_data.new_location then
      { st with location := gm_data.new_location.getD st.location }
    else st
  if pyTruthy gm_data.quest_update then
    { st1 with current_quest := gm_data.quest_update.getD st1.current_quest }
  else st1

/-- One entry of the generated cast list in `create_game`.  `none` models an
entry whose shape makes `Agent(**a, is_active=...)` raise (missing or extra
keys), which the surrounding `except` turns into a creation failure. -/
structure CastMember where
  name : String
  role : String
  description : String
  personality : String
  deriving DecidableEq

/-- The structured cast response consumed by `create_game` (game_engine.py,
lines 239-251).  `call_llm` returns the empty object on provider failure,
modelled by the all-default value. -/
structure CastData where
  agents : List (Option CastMember) := []
  visual_style : Option String := none
  starting_location : Option String := none
  deriving DecidableEq

/-- The two generation capabilities of `llm_factory.py`, one pure response
function per engine call site, applied to the (system prompt, user prompt)
pair the engine sends.  `castGen` is the `call_llm` JSON-mode call of
`create_game`; `gm` the JSON-mode call of turn step 3; `image` is
`generate_image_url`.  Provider failure is modelled by the oracle returning
the empty value that the factory substitutes on exception. -/
structure LLMOracle where
  act : String → String → String
  react : String → String → String
  gm : String → String → GMDelta
  narrate : String → String → String
  art : String → String → String
  summarize : String → String → String
  castGen : String → String → CastData
  image : String → String

/-- Tag for each external generation call a turn can perform. -/
inductive StageCall
  | actCall
  | reactCall
  | gmCall
  | narrateCall
  | artCall
  | imageCall
  | summarizeCall
  deriving DecidableEq

/-- The REACTOR system prompt (game_engine.py, line 307). -/
def sysReactText : String :=
  "Du bist Co-Autor. Wer muss auf diese Aktion reagieren? Antworte kurz aus deren Sicht. Wenn niemand, antworte \x27PASS\x27."

/-- The REACTOR user prompt (game_engine.py, lines 308-309). -/
def userReactText (current_actor : Agent) (actor_raw_action : String)
    (passive_agents : List Agent) : String :=
  "Aktion von " ++ current_actor.name ++ ": " ++ actor_raw_action
    ++ "\nAnwesende: " ++ String.intercalate ", " (passive_agents.map (fun a => a.name))

/-- Turn step 2, REACTOR (game_engine.py, lines 301-312): if agents other
than the actor exist, ask for a collective reaction; a response containing
"PASS" anywhere (Python `in`, a substring test, here an infix test on the
character lists) is treated as no reaction.  Returns the reaction text and
the generation calls made. -/
def reactStage (oracle : LLMOracle) (game : GameSession) (current_actor : Agent)
    (actor_raw_action : String) : String × List StageCall :=
  let passive_agents := game.agents.filter (fun a => a.name != current_actor.name)
  if passive_agents.isEmpty then ("", [])
  else
    let reaction_raw :=
      oracle.react sysReactText (userReactText current_actor actor_raw_action passive_agents)
    (if "PASS".data <:+: reaction_raw.data then "" else reaction_raw, [StageCall.reactCall])

/-- The global `GAMES` registry (game_engine.py, line 192). -/
def Store : Type := String → Option GameSession

/-- `GAMES[sid] = game`. -/
def Store.insert (s : Store) (sid : String) (g : GameSession) : Store :=
  fun k => if k = sid then some g else s k

/-- The registry at process start. -/
def Store.empty : Store := fun _ => none

/-- What `process_turn` gives its caller: `None` for an unknown session id,
a propagated `IndexError` for an empty roster, or the mutated session. -/
inductive TurnOutcome
  | notFound
  | indexError
  | ok (g : GameSession)
  deriving DecidableEq

/-- Complete effect of one `process_turn` call: the resulting registry, the
caller-visible outcome, the actor the rotation chose (when it chose one),
and the external generation calls made, in order. -/
structure TurnRecord where
  store : Store
  outcome : TurnOutcome
  actor : Option Agent
  calls : List StageCall

/-- The system prompt of `GameManager._update_summary` (game_engine.py,
line 389). -/
def sysSumText : String :=
  "Fasse die bisherige Handlung in 3 Sätzen zusammen. Behalte wichtige Fakten (Orte, Items)."

/-- `GameManager._update_summary` (game_engine.py, lines 377-391): the
summary text that replaces `plot_summary` wholesale.  In Python the method
assigns `game.plot_summary`; here it returns the new summary, which
the turn pipeline assigns. -/
def GameManager.update_summary (oracle : LLMOracle) (game : GameSession) : String :=
  let full_text := String.intercalate "\n" game.narrative_history
  oracle.summarize sysSumText full_text

/-- Steps 1-6 of `GameManager.process_turn` (game_engine.py, lines
288-374): everything after the session has been fetched, `turn_count`
incremented and the actor chosen.  `game1` is the session with the
increment already applied and `current_actor` the rotation's choice.
Python mutates the session object in place; here each mutation produces
the next session value, and the final session is returned together with
the generation calls made, in order. -/
def turnBody (oracle : LLMOracle) (game1 : GameSession) (current_actor : Agent)
    (user_intervention : Option String) : GameSession × List StageCall :=
      let context := game1.get_context_for_llm
      let sys_actor :=
        "Du bist " ++ current_actor.name ++ " (" ++ current_actor.description ++ "). "
          ++ "Persönlichkeit: " ++ current_actor.personality ++ ".\n"
          ++ "Handle basierend auf dem aktuellen Ziel: " ++ game1.state.current_quest ++ ".\n"
          ++ "Schreibe deine Handlung und wörtliche Rede (in Anführungszeichen)."
      let user_prompt_actor := context ++ "\n\nEinfluss von Außen (Fate): "
        ++ pyOrDefault user_intervention "Nichts" ++ "\nWas tust du?"
      let actor_raw_action := oracle.act sys_actor user_prompt_actor
      let reactResult := reactStage oracle game1 current_actor actor_raw_action
      let reaction_text := reactResult.1
      let sys_gm := "Du bist der Game Engine Logic Processor.\n        Analysiere die Aktion und aktualisiere den Status.\n        JSON Output: \x7b\n            \"new_location\": \"...\", (nur wenn geändert, sonst null)\n            \"inventory_changes\": [\"+Item\", \"-Item\"],\n            \"quest_update\": \"...\", (Neues Ziel oder null)\n            \"success\": true/false\n        \x7d"
      let user_gm := "Old State: " ++ game1.state.to_string ++ "\nAction: " ++ actor_raw_action
        ++ "\nFate: " ++ pyShow user_intervention
      let gm_data := oracle.gm sys_gm user_gm
      let game2 : GameSession := { game1 with state := applyGmData game1.state gm_data }
      let sys_narrator :=
        "Du bist ein Romanautor. Schreibe den nächsten Abschnitt der Geschichte."
          ++ "WICHTIG: Der Leser sieht NICHT den Input-Text des Akteurs. "
          ++ "Du musst die Handlung des Akteurs (z.B. Dialoge, Begegnungen, Aktionen) "
          ++ "explizit in deinen Text integrieren und ausschreiben. "
          ++ "Fasse nicht nur das Ergebnis zusammen, sondern erzähle, wie es dazu kam."
          ++ "REGEL 1: Der Leser kennt die \x27Input Daten\x27 NICHT. Du musst sie im Text darstellen."
          ++ "REGEL 2: Wenn der Akteur etwas sagt oder jemanden trifft, muss das im Text vorkommen."
          ++ "REGEL 3: Vermeide Zusammenfassungen wie \x27Nachdem sie sich trafen...\x27, sondern schreibe die Szene aus."
      let user_narrator :=
        "Stil: " ++ game2.visual_style ++ "\n"
          ++ "Letzter Absatz (Kontext): " ++ game2.narrative_history.getLast?.getD "Start." ++ "\n\n"
          ++ "JETZT PASSIERT FOLGENDES (Integriere dies in die Geschichte):\n"
          ++ "1. AKTION (" ++ current_actor.name ++ "): " ++ actor_raw_action ++ "\n"
          ++ "2. REAKTIONEN: " ++ reaction_text ++ "\n"
          ++ "3. ERGEBNIS: " ++ (if gm_data.success then "Erfolg" else "Fehlschlag") ++ ". "
          ++ "Neues Ziel: " ++ game2.state.current_quest ++ "."
      let final_prose := oracle.narrate sys_narrator user_narrator
      let game3 : GameSession :=
        { game2 with narrative_history := game2.narrative_history ++ [final_prose] }
      let sys_art :=
        "Du bist Art Director für ein Kinderbuch. "
          ++ "Erstelle einen DALL-E Prompt (englisch). "
          ++ "WICHTIG: Vermeide urheberrechtlich geschützte Namen. "
          ++ "Beschreibe Figuren abstrakt (z.B. \x27a lemon character\x27 statt \x27Lenny Lemon\x27). "
          ++ "Vermeide Begriffe, die Gewalt oder Anzüglichkeit missverstanden werden könnten."
      let prompt := oracle.art sys_art ("Style: " ++ game3.visual_style ++ "\nText: " ++ final_prose)
      let game4 : GameSession := { game3 with last_image_url := oracle.image prompt }
      let summaryStep :=
        if game4.turn_count % 3 == 0 then
          ({ game4 with plot_summary := GameManager.update_summary oracle game4 },
            [StageCall.summarizeCall])
        else (game4, ([] : List StageCall))
      (summaryStep.1,
        [StageCall.actCall] ++ reactResult.2
          ++ [StageCall.gmCall, StageCall.narrateCall, StageCall.artCall, StageCall.imageCall]
          ++ summaryStep.2)

/-- `GameManager.process_turn` (game_engine.py, lines 259-375): fetch the
session (`None` when the id is unknown), increment `turn_count`, choose the
actor (the `IndexError` of an empty roster propagates to the caller after
the increment has already hit the stored session), run the six-step body,
and write the mutated session back to the registry. -/
def GameManager.process_turn (oracle : LLMOracle) (store : Store) (session_id : String)
    (user_intervention : Option String) : TurnRecord :=
  match store session_id with
  | none => ⟨store, TurnOutcome.notFound, none, []⟩
  | some game0 =>
    let game1 : GameSession := { game0 with turn_count := game0.turn_count + 1 }
    match game1.rotate_active_actor with
    | none => ⟨store.insert session_id game1, TurnOutcome.indexError, none, []⟩
    | some current_actor =>
      let result := turnBody oracle game1 current_actor user_intervention
      ⟨store.insert session_id result.1, TurnOutcome.ok result.1, some current_actor, result.2⟩

/-- The agents list comprehension of `create_game` (game_engine.py, lines
240-243): each well-formed entry becomes an `Agent` with
`is_active := (role == "Protagonist")`; a malformed entry raises inside the
comprehension, so the whole construction yields `none`. -/
def buildCast : List (Option CastMember) → Option (List Agent)
  | [] => some []
  | none :: _ => none
  | some c :: rest =>
    (buildCast rest).map (fun as =>
      { name := c.name, role := c.role, description := c.description,
        personality := c.personality, is_active := c.role == "Protagonist" } :: as)

/-- The cast-generation system prompt of `create_game` (game_engine.py,
lines 228-236).  It is a plain (not f-) Python string, so it contains the
braces and the text `scenario` literally. -/
def castSysPrompt : String := "Du bist ein erfahrener Showrunner. Erstelle ein Cast für: \x7bscenario\x7d.\n        JSON Format:\n        \x7b\n          \"agents\": [\n            \x7b\"name\": \"...\", \"role\": \"Protagonist/Mentor/Antagonist\", \"description\": \"...\", \"personality\": \"...\"\x7d\n          ],\n          \"visual_style\": \"...\",\n          \"starting_location\": \"...\"\n        \x7d"

/-- `GameManager.create_game` (game_engine.py, lines 207-257).
`uuid.uuid4()` is modelled by the caller-supplied `fresh_id`.  Returns the
updated registry and the created session; `none` models the `return None`
of the `except` branch, which fires exactly when building the cast raises.
The Python `sys_prompt` is a plain (not f-) string, so it contains the
braces and the text `scenario` literally. -/
def GameManager.create_game (oracle : LLMOracle) (store : Store) (fresh_id : String)
    (scenario : String) : Store × Option GameSession :=
  let data := oracle.castGen castSysPrompt scenario
  match buildCast data.agents with
  | none => (store, none)
  | some agents =>
    let session0 := GameSession.init fresh_id scenario agents (data.visual_style.getD "Cinematic")
    let session : GameSession :=
      { session0 with state := { session0.state with location := data.starting_location.getD "Unknown" } }
    (store.insert fresh_id session, some session)

/-- `GameStateResponse` (schemas.py, lines 62-100), restricted to the fields
`build_response` fills. -/
structure GameStateResponse where
  session_id : String
  turn_count : Nat
  last_narrative : String
  image_url : String
  active_actor_name : String
  current_location : String
  current_quest : String
  inventory : List String
  history : List String
  deriving DecidableEq

/-- `build_response` (routers/story.py, lines 26-68). -/
def build_response (game : GameSession) : GameStateResponse where
  session_id := game.session_id
  turn_count := game.turn_count
  last_narrative :=
    match game.narrative_history.getLast? with
    | some p => p
    | none => game.plot_summary
  image_url := game.last_image_url
  active_actor_name :=
    match game.agents.find? (fun a => a.is_active) with
    | some a => a.name
    | none => "Unbekannt"
  current_location := game.state.location
  current_quest := game.state.current_quest
  inventory := game.state.inventory
  history := game.narrative_history.drop (game.narrative_history.length - 5)

/-- Repeatedly submit turns for one session id: the caller-side loop that
drives `process_turn` once per element of `interventions`. -/
def iterate_turns (oracle : LLMOracle) (sid : String) :
    List (Option String) → Store → Store
  | [], store => store
  | iv :: rest, store =>
      iterate_turns oracle sid rest (GameManager.process_turn oracle store sid iv).store

/-- The model-wide invariant: every registered session has at most one
narrative entry per counted turn. -/
def StoreInv (store : Store) : Prop :=
  ∀ sid g, store sid = some g → g.narrative_history.length ≤ g.turn_count

/-! ## Concrete fixtures used to evaluate the engine -/

/-- A constant-response oracle for evaluating the engine on test inputs. -/
def testOracle : LLMOracle where
  act := fun _ _ => "A-text"
  react := fun _ _ => "R-text"
  gm := fun _ _ => {}
  narrate := fun _ _ => "P-text"
  art := fun _ _ => "prompt-text"
  summarize := fun _ _ => "S-text"
  castGen := fun _ _ => {}
  image := fun _ => "http://img.example/1.png"

/-- An eligible protagonist. -/
def agentA : Agent :=
  { name := "A", role := "Protagonist", description := "dA", personality := "pA" }

/-- A second eligible protagonist. -/
def agentB : Agent :=
  { name := "B", role := "Protagonist", description := "dB", personality := "pB" }

/-- An agent not marked eligible for the rotation. -/
def agentC : Agent :=
  { name := "C", role := "Mentor", description := "dC", personality := "pC",
    is_active := false }

/-- A fresh session with two eligible agents. -/
def testSession : GameSession :=
  GameSession.init "s1" "Ein Abenteuer" [agentA, agentB] "Cinematic"

/-- A registry holding only `testSession`. -/
def testStore : Store := Store.empty.insert "s1" testSession

/-- A session whose only agent is not marked eligible. -/
def mentorSession : GameSession :=
  GameSession.init "s2" "Ein Abenteuer" [agentC] "Cinematic"

/-- A session with an empty roster. -/
def emptyRosterSession : GameSession :=
  GameSession.init "s3" "Ein Abenteuer" [] "Cinematic"

/-- A registry holding the fallback-rotation and empty-roster sessions. -/
def edgeStore : Store :=
  (Store.empty.insert "s2" mentorSession).insert "s3" emptyRosterSession

/-- Two turns already played: the next completed turn is the third, which
triggers compaction. -/
def preCompactSession : GameSession :=
  { testSession with turn_count := 2, narrative_history := ["h1", "h2"] }

/-- A registry holding only `preCompactSession`. -/
def preCompactStore : Store := Store.empty.insert "s1" preCompactSession

/-- An oracle whose REACT response contains the sentinel "PASS" inside a
longer sentence. -/
def passOracle : LLMOracle :=
  { testOracle with react := fun _ _ => "Ich denke, wir sollten hier PASS sagen." }

/-- An oracle whose cast generation yields a well-formed two-member cast
with one protagonist. -/
def goodCastOracle : LLMOracle :=
  { testOracle with
    castGen := fun _ _ =>
      { agents :=
          [some ⟨"Held", "Protagonist", "d1", "p1"⟩,
            some ⟨"Schurke", "Antagonist", "d2", "p2"⟩],
        visual_style := some "Oil Painting",
        starting_location := some "Hafen" } }

/-- An oracle whose GAME_MASTER delta carries an empty-string location. -/
def emptyLocOracle : LLMOracle :=
  { testOracle with gm := fun _ _ => { new_location := some "" } }

/-! ## Helper lemmas -/

theorem Store.insert_self (s : Store) (sid : String) (g : GameSession) :
    (s.insert sid g) sid = some g := by
  simp [Store.insert]

theorem Store.insert_ne (s : Store) (sid k : String) (g : GameSession) (h : k ≠ sid) :
    (s.insert sid g) k = s k := by
  simp [Store.insert, h]

/-- When some agent is marked eligible, the rotation indexes the eligible
sequence at `turn_count % length`. -/
theorem rotate_of_filter_ne_nil (g : GameSession)
    (h : g.agents.filter (fun a => a.is_active) ≠ []) :
    g.rotate_active_actor =
      (g.agents.filter (fun a => a.is_active))[g.turn_count %
        (g.agents.filter (fun a => a.is_active)).length]? := by
  unfold GameSession.rotate_active_actor
  simp [List.isEmpty_iff, h]

/-- When no agent is marked eligible, the rotation indexes the full roster. -/
theorem rotate_of_filter_nil (g : GameSession)
    (h : g.agents.filter (fun a => a.is_active) = []) :
    g.rotate_active_actor = g.agents[g.turn_count % g.agents.length]? := by
  unfold GameSession.rotate_active_actor
  simp [List.isEmpty_iff, h]

/-- A nonempty roster always yields an actor. -/
theorem rotate_isSome_of_agents_ne_nil (g : GameSession) (h : g.agents ≠ []) :
    ∃ a, g.rotate_active_actor = some a := by
  by_cases hf : g.agents.filter (fun a => a.is_active) = []
  · rw [rotate_of_filter_nil g hf]
    have hlt : g.turn_count % g.agents.length < g.agents.length :=
      Nat.mod_lt _ (List.length_pos.mpr h)
    exact ⟨_, List.getElem?_eq_getElem hlt⟩
  · rw [rotate_of_filter_ne_nil g hf]
    have hlt : g.turn_count % (g.agents.filter (fun a => a.is_active)).length <
        (g.agents.filter (fun a => a.is_active)).length :=
      Nat.mod_lt _ (List.length_pos.mpr hf)
    exact ⟨_, List.getElem?_eq_getElem hlt⟩

/-- An empty roster yields no actor (Python raises `IndexError`). -/
theorem rotate_none_of_agents_nil (g : GameSession) (h : g.agents = []) :
    g.rotate_active_actor = none := by
  unfold GameSession.rotate_active_actor
  simp [h]

/-- The observable effect of the post-rotation turn body: `turn_count` is
untouched (the increment happened before the body), exactly one prose block
is appended, identity fields and the roster are preserved, the state is the
GAME_MASTER delta applied to the old state, the summary is replaced by the
compactor's output over the full post-append history exactly when
`turn_count % 3 = 0` and kept verbatim otherwise, and the summarizer/REACT
generation calls happen if and only if their triggers hold. -/
theorem turnBody_spec (oracle : LLMOracle) (g : GameSession) (a : Agent)
    (iv : Option String) :
    ∃ prose d,
      (turnBody oracle g a iv).1.turn_count = g.turn_count ∧
      (turnBody oracle g a iv).1.agents = g.agents ∧
      (turnBody oracle g a iv).1.session_id = g.session_id ∧
      (turnBody oracle g a iv).1.setting = g.setting ∧
      (turnBody oracle g a iv).1.visual_style = g.visual_style ∧
      (turnBody oracle g a iv).1.narrative_history = g.narrative_history ++ [prose] ∧
      (turnBody oracle g a iv).1.state = applyGmData g.state d ∧
      (if g.turn_count % 3 = 0 then
          (turnBody oracle g a iv).1.plot_summary =
            oracle.summarize sysSumText
              (String.intercalate "\n" (g.narrative_history ++ [prose]))
        else (turnBody oracle g a iv).1.plot_summary = g.plot_summary) ∧
      (StageCall.summarizeCall ∈ (turnBody oracle g a iv).2 ↔ g.turn_count % 3 = 0) ∧
      (StageCall.reactCall ∈ (turnBody oracle g a iv).2 ↔
        g.agents.filter (fun x => x.name != a.name) ≠ []) := by
  unfold turnBody reactStage GameManager.update_summary
  by_cases h3 : g.turn_count % 3 = 0 <;>
    by_cases hp : (g.agents.filter (fun x => x.name != a.name)).isEmpty = true
  · have h3b : (g.turn_count % 3 == 0) = true := by simp [h3]
    simp only [h3b, hp, Bool.false_eq_true, Bool.true_eq_false, reduceIte, if_true, if_false]
    refine ⟨_, _, trivial, trivial, trivial, trivial, trivial, rfl, rfl, ?_, ?_, ?_⟩ <;>
      simp_all [List.isEmpty_iff]
  · have h3b : (g.turn_count % 3 == 0) = true := by simp [h3]
    have hpb : (g.agents.filter (fun x => x.name != a.name)).isEmpty = false := by
      simpa using hp
    simp only [h3b, hpb, Bool.false_eq_true, Bool.true_eq_false, reduceIte, if_true, if_false]
    refine ⟨_, _, trivial, trivial, trivial, trivial, trivial, rfl, rfl, ?_, ?_, ?_⟩ <;>
      simp_all [List.isEmpty_iff]
  · have h3b : (g.turn_count % 3 == 0) = false := by simp [h3]
    simp only [h3b, hp, Bool.false_eq_true, Bool.true_eq_false, reduceIte, if_true, if_false]
    refine ⟨_, _, trivial, trivial, trivial, trivial, trivial, rfl, rfl, ?_, ?_, ?_⟩ <;>
      simp_all [List.isEmpty_iff]
  · have h3b : (g.turn_count % 3 == 0) = false := by simp [h3]
    have hpb : (g.agents.filter (fun x => x.name != a.name)).isEmpty = false := by
      simpa using hp
    simp only [h3b, hpb, Bool.false_eq_true, Bool.true_eq_false, reduceIte, if_true, if_false]
    refine ⟨_, _, trivial, trivial, trivial, trivial, trivial, rfl, rfl, ?_, ?_, ?_⟩ <;>
      simp_all [List.isEmpty_iff]

/-- The state-update stage never touches the inventory. -/
theorem applyGmData_inventory (st : StoryState) (d : GMDelta) :
    (applyGmData st d).inventory = st.inventory := by
  unfold applyGmData
  dsimp only
  split <;> split <;> rfl

/-- The state-update stage never touches the threat list. -/
theorem applyGmData_threats (st : StoryState) (d : GMDelta) :
    (applyGmData st d).active_threats = st.active_threats := by
  unfold applyGmData
  dsimp only
  split <;> split <;> rfl

/-- The location after the state-update stage. -/
theorem applyGmData_location (st : StoryState) (d : GMDelta) :
    (applyGmData st d).location =
      if pyTruthy d.new_location then d.new_location.getD st.location else st.location := by
  unfold applyGmData
  dsimp only
  by_cases h1 : pyTruthy d.new_location <;> by_cases h2 : pyTruthy d.quest_update <;>
    simp [h1, h2]

/-- The quest after the state-update stage. -/
theorem applyGmData_quest (st : StoryState) (d : GMDelta) :
    (applyGmData st d).current_quest =
      if pyTruthy d.quest_update then d.quest_update.getD st.current_quest
      else st.current_quest := by
  unfold applyGmData
  dsimp only
  by_cases h1 : pyTruthy d.new_location <;> by_cases h2 : pyTruthy d.quest_update <;>
    simp [h1, h2]

/-- An unknown session id leaves the registry untouched and reports
not-found with no actor and no generation calls. -/
theorem process_turn_not_found (oracle : LLMOracle) (store : Store) (sid : String)
    (iv : Option String) (h : store sid = none) :
    GameManager.process_turn oracle store sid iv = ⟨store, TurnOutcome.notFound, none, []⟩ := by
  unfold GameManager.process_turn
  rw [h]

/-- A found session with an empty roster: `turn_count` is incremented on the
stored session, then the rotation's `IndexError` propagates: no actor, no
generation calls, no history append. -/
theorem process_turn_index_error (oracle : LLMOracle) (store : Store) (sid : String)
    (iv : Option String) (g : GameSession) (hs : store sid = some g) (hA : g.agents = []) :
    GameManager.process_turn oracle store sid iv =
      ⟨store.insert sid { g with turn_count := g.turn_count + 1 },
        TurnOutcome.indexError, none, []⟩ := by
  have hrot : ({ g with turn_count := g.turn_count + 1 } : GameSession).rotate_active_actor
      = none := rotate_none_of_agents_nil _ (by simpa using hA)
  simp only [GameManager.process_turn, hs, hrot]

/-- The observable effect of a completed turn on a stored session with a
nonempty roster: the outcome is the mutated session, which is written back
under the same id; `turn_count` goes up by one; exactly one prose block is
appended; roster and identity fields are preserved; the state change is the
GAME_MASTER delta (which never touches inventory or threats); the summary
is replaced by the compactor output over the full post-append history
exactly when the incremented `turn_count` is divisible by three; and the
summarizer/REACT calls happen if and only if their triggers hold. -/
theorem process_turn_ok_spec (oracle : LLMOracle) (store : Store) (sid : String)
    (iv : Option String) (g : GameSession) (hs : store sid = some g) (hA : g.agents ≠ []) :
    ∃ g' prose a,
      (GameManager.process_turn oracle store sid iv).outcome = TurnOutcome.ok g' ∧
      (GameManager.process_turn oracle store sid iv).store = store.insert sid g' ∧
      (GameManager.process_turn oracle store sid iv).actor = some a ∧
      g'.turn_count = g.turn_count + 1 ∧
      g'.narrative_history = g.narrative_history ++ [prose] ∧
      g'.agents = g.agents ∧
      g'.session_id = g.session_id ∧
      g'.setting = g.setting ∧
      g'.visual_style = g.visual_style ∧
      g'.state.inventory = g.state.inventory ∧
      g'.state.active_threats = g.state.active_threats ∧
      (∃ d, g'.state = applyGmData g.state d) ∧
      (if (g.turn_count + 1) % 3 = 0 then
          g'.plot_summary =
            oracle.summarize sysSumText
              (String.intercalate "\n" (g.narrative_history ++ [prose]))
        else g'.plot_summary = g.plot_summary) ∧
      (StageCall.summarizeCall ∈ (GameManager.process_turn oracle store sid iv).calls ↔
        (g.turn_count + 1) % 3 = 0) ∧
      (StageCall.reactCall ∈ (GameManager.process_turn oracle store sid iv).calls ↔
        g.agents.filter (fun x => x.name != a.name) ≠ []) := by
  obtain ⟨a, ha⟩ := rotate_isSome_of_agents_ne_nil
    { g with turn_count := g.turn_count + 1 } (by simpa using hA)
  have hrec : GameManager.process_turn oracle store sid iv =
      ⟨store.insert sid (turnBody oracle { g with turn_count := g.turn_count + 1 } a iv).1,
        TurnOutcome.ok (turnBody oracle { g with turn_count := g.turn_count + 1 } a iv).1,
        some a,
        (turnBody oracle { g with turn_count := g.turn_count + 1 } a iv).2⟩ := by
    simp only [GameManager.process_turn, hs, ha]
  obtain ⟨prose, d, h1, h2, h3, h4, h5, h6, h7, h8, h9, h10⟩ :=
    turnBody_spec oracle { g with turn_count := g.turn_count + 1 } a iv
  refine ⟨(turnBody oracle { g with turn_count := g.turn_count + 1 } a iv).1, prose, a,
    ?_, ?_, ?_, ?_, ?_, ?_, ?_, ?_, ?_, ?_, ?_, ?_, ?_, ?_, ?_⟩
  · rw [hrec]
  · rw [hrec]
  · rw [hrec]
  · exact h1
  · exact h6
  · exact h2
  · exact h3
  · exact h4
  · exact h5
  · rw [h7]; exact applyGmData_inventory _ _
  · rw [h7]; exact applyGmData_threats _ _
  · exact ⟨d, h7⟩
  · exact h8
  · rw [hrec]; exact h9
  · rw [hrec]; exact h10

/-- Registering a session that satisfies the history bound preserves the
store invariant. -/
theorem StoreInv.insert (store : Store) (h : StoreInv store) (sid : String)
    (g : GameSession) (hg : g.narrative_history.length ≤ g.turn_count) :
    StoreInv (store.insert sid g) := by
  intro k gg hk
  by_cases hks : k = sid
  · subst hks
    rw [Store.insert_self] at hk
    obtain rfl : g = gg := by injection hk
    exact hg
  · rw [Store.insert_ne store sid k g hks] at hk
    exact h k gg hk

/-- Driving `k` turns against a stored session with a nonempty roster adds
`k` to both the turn counter and the history length, and never changes the
roster. -/
theorem iterate_turns_spec (oracle : LLMOracle) (sid : String)
    (ivs : List (Option String)) :
    ∀ store g0, store sid = some g0 → g0.agents ≠ [] →
      ∃ g, (iterate_turns oracle sid ivs store) sid = some g ∧
        g.turn_count = g0.turn_count + ivs.length ∧
        g.narrative_history.length = g0.narrative_history.length + ivs.length ∧
        g.agents = g0.agents := by
  induction ivs with
  | nil =>
    intro store g0 hs _
    exact ⟨g0, hs, by simp [iterate_turns], by simp [iterate_turns], rfl⟩
  | cons iv rest ih =>
    intro store g0 hs hA
    obtain ⟨g', prose, a, h1, h2, h3, h4, h5, h6, _⟩ :=
      process_turn_ok_spec oracle store sid iv g0 hs hA
    have hs' : (GameManager.process_turn oracle store sid iv).store sid = some g' := by
      rw [h2]; exact Store.insert_self _ _ _
    obtain ⟨g, hg, hc, hh, hag⟩ :=
      ih (GameManager.process_turn oracle store sid iv).store g' hs' (h6 ▸ hA)
    refine ⟨g, by simpa [iterate_turns] using hg, ?_, ?_, by rw [hag, h6]⟩
    · rw [hc, h4]; simp; omega
    · rw [hh, h5]; simp; omega

/-- A non-empty-string is not `isEmpty`. -/
theorem isEmpty_false_of_ne (s : String) (h : s ≠ "") : s.isEmpty = false := by
  cases hie : s.isEmpty
  · rfl
  · exact absurd ((String.isEmpty_iff s).mp hie) h

/-- Case analysis of `create_game`: a malformed cast aborts with nothing
registered; otherwise the new session is registered under the fresh id with
the built cast, zeroed counters and the scenario-derived summary. -/
theorem create_game_spec (oracle : LLMOracle) (store : Store) (fid scn : String) :
    (buildCast (oracle.castGen castSysPrompt scn).agents = none →
      GameManager.create_game oracle store fid scn = (store, none)) ∧
    (∀ agents, buildCast (oracle.castGen castSysPrompt scn).agents = some agents →
      ∃ s : GameSession,
        GameManager.create_game oracle store fid scn = (store.insert fid s, some s) ∧
        s.agents = agents ∧ s.session_id = fid ∧ s.setting = scn ∧
        s.turn_count = 0 ∧ s.narrative_history = [] ∧
        s.plot_summary = "Die Geschichte beginnt: " ++ scn ∧
        s.visual_style = (oracle.castGen castSysPrompt scn).visual_style.getD "Cinematic" ∧
        s.state.location = (oracle.castGen castSysPrompt scn).starting_location.getD "Unknown" ∧
        s.state.inventory = [] ∧ s.state.current_quest = "Erkunde die Welt") := by
  constructor
  · intro hb
    simp only [GameManager.create_game, hb]
  · intro agents hb
    refine ⟨{ GameSession.init fid scn agents
        ((oracle.castGen castSysPrompt scn).visual_style.getD "Cinematic") with
      state := { (GameSession.init fid scn agents
          ((oracle.castGen castSysPrompt scn).visual_style.getD "Cinematic")).state with
        location := (oracle.castGen castSysPrompt scn).starting_location.getD "Unknown" } },
      ?_, rfl, rfl, rfl, rfl, rfl, rfl, rfl, rfl, rfl, rfl⟩
    simp only [GameManager.create_game, hb]

/-! ## Claim theorems -/

/-- C1, counterexample: the claim predicts that with two eligible agents the
first turn (1-indexed turn k = 1) selects `eligible[(1-1) mod 2] = eligible[0]`
(agent A), but on a fresh two-protagonist session the engine selects agent B:
the rotation indexes with the already-incremented `turn_count`, so turn 1
uses index `1 mod 2 = 1`. -/
theorem c1_counterexample :
    testSession.agents.filter (fun a => a.is_active) = [agentA, agentB] ∧
    testSession.turn_count = 0 ∧
    (GameManager.process_turn testOracle testStore "s1" none).actor = some agentB ∧
    agentB ≠ agentA ∧
    [agentA, agentB][(1 - 1) % 2]? = some agentA := by
  refine ⟨by decide, rfl, by decide, by decide, by decide⟩

/-- C1 (amended): for every session whose eligible-agent sequence `E` has
`n ≥ 1` agents and is not mutated, the actor chosen by the rotation on
1-indexed turn `k` (`turn_count` incremented before selection) is
`E[k mod n]` — so turn 1 selects index `1 mod n`, turn 2 index `2 mod n`,
wrapping deterministically (for `n = 1` every turn selects index 0).  Here
`k = g.turn_count + 1` is the post-increment value of the turn being
processed. -/
theorem c1_rotation_determinism (oracle : LLMOracle) (store : Store) (sid : String)
    (iv : Option String) (g : GameSession) (E : List Agent)
    (hs : store sid = some g) (hE : E = g.agents.filter (fun a => a.is_active))
    (hne : E ≠ []) :
    (GameManager.process_turn oracle store sid iv).actor =
      E[(g.turn_count + 1) % E.length]? := by
  subst hE
  have hrot := rotate_of_filter_ne_nil
    { g with turn_count := g.turn_count + 1 } (by simpa using hne)
  have hlt : (g.turn_count + 1) % (g.agents.filter (fun a => a.is_active)).length <
      (g.agents.filter (fun a => a.is_active)).length :=
    Nat.mod_lt _ (List.length_pos.mpr hne)
  have hsome : ({ g with turn_count := g.turn_count + 1 } : GameSession).rotate_active_actor
      = some ((g.agents.filter (fun a => a.is_active)).get
          ⟨(g.turn_count + 1) % (g.agents.filter (fun a => a.is_active)).length, hlt⟩) := by
    rw [hrot]
    simp only [List.get_eq_getElem]
    exact List.getElem?_eq_getElem hlt
  simp only [GameManager.process_turn, hs, hsome]
  rw [List.getElem?_eq_getElem hlt]
  simp only [List.get_eq_getElem]

/-- C1 witness: on a fresh session with eligible sequence `[A, B]`, the first
turn selects `[A, B][(0 + 1) mod 2]` (that is, agent B). -/
theorem c1_witness :
    (GameManager.process_turn testOracle testStore "s1" none).actor =
      [agentA, agentB][(0 + 1) % 2]? :=
  c1_rotation_determinism testOracle testStore "s1" none testSession [agentA, agentB]
    (by decide) (by decide) (by decide)

/-- C5: submitting a turn for a session identifier absent from the registry
returns the not-found outcome, leaves the registry pointwise identical (so
nothing becomes registered under that identifier and every stored session —
its turn count, histories and story state — is untouched), chooses no actor
and performs no generation call. -/
theorem c5_not_found_contract (oracle : LLMOracle) (store : Store) (sid : String)
    (iv : Option String) (h : store sid = none) :
    (GameManager.process_turn oracle store sid iv).outcome = TurnOutcome.notFound ∧
    (GameManager.process_turn oracle store sid iv).store = store ∧
    (GameManager.process_turn oracle store sid iv).store sid = none ∧
    (GameManager.process_turn oracle store sid iv).actor = none ∧
    (GameManager.process_turn oracle store sid iv).calls = [] := by
  rw [process_turn_not_found oracle store sid iv h]
  exact ⟨rfl, rfl, h, rfl, rfl⟩

/-- C5 witness: an id never issued, against a registry holding one session. -/
theorem c5_witness :
    (GameManager.process_turn testOracle testStore "unknown-id" none).outcome =
        TurnOutcome.notFound ∧
      (GameManager.process_turn testOracle testStore "unknown-id" none).store "unknown-id" =
        none ∧
      (GameManager.process_turn testOracle testStore "unknown-id" none).store = testStore := by
  obtain ⟨h1, h2, h3, _, _⟩ :=
    c5_not_found_contract testOracle testStore "unknown-id" none (by decide)
  exact ⟨h1, h3, h2⟩

/-- C8: when no agent is marked eligible the rotation falls back to the full
roster (the turn completes with an actor drawn from the roster at the same
rotation index); when the roster itself is empty the turn ends in the
propagated `IndexError` — a reported configuration error with no defaulted
actor. -/
theorem c8_empty_eligibility_fallback (oracle : LLMOracle) (store : Store)
    (sid : String) (iv : Option String) (g : GameSession) (hs : store sid = some g) :
    (g.agents.filter (fun a => a.is_active) = [] → g.agents ≠ [] →
      (GameManager.process_turn oracle store sid iv).actor =
          g.agents[(g.turn_count + 1) % g.agents.length]? ∧
        ∃ g', (GameManager.process_turn oracle store sid iv).outcome = TurnOutcome.ok g') ∧
    (g.agents = [] →
      (GameManager.process_turn oracle store sid iv).outcome = TurnOutcome.indexError ∧
      (GameManager.process_turn oracle store sid iv).actor = none) := by
  constructor
  · intro hf hA
    constructor
    · have hrot := rotate_of_filter_nil
        { g with turn_count := g.turn_count + 1 } (by simpa using hf)
      have hlt : (g.turn_count + 1) % g.agents.length < g.agents.length :=
        Nat.mod_lt _ (List.length_pos.mpr hA)
      have hsome : ({ g with turn_count := g.turn_count + 1 } : GameSession).rotate_active_actor
          = some (g.agents.get ⟨(g.turn_count + 1) % g.agents.length, hlt⟩) := by
        rw [hrot]
        simp only [List.get_eq_getElem]
        exact List.getElem?_eq_getElem hlt
      simp only [GameManager.process_turn, hs, hsome]
      rw [List.getElem?_eq_getElem hlt]
      simp only [List.get_eq_getElem]
    · obtain ⟨g', prose, a, h1, _⟩ := process_turn_ok_spec oracle store sid iv g hs hA
      exact ⟨g', h1⟩
  · intro hA
    rw [process_turn_index_error oracle store sid iv g hs hA]
    exact ⟨rfl, rfl⟩

/-- C2: (1) after `k` successfully invoked turns from a fresh session,
`narrative_history` has `k` entries and `turn_count = k` — every completed
turn increments the counter exactly once and appends exactly one entry;
(2) `len(narrative_history) ≤ turn_count` is preserved by every turn
submission (found or not, empty roster or not); (3) it is preserved by
session creation. -/
theorem c2_history_append_invariant :
    (∀ (oracle : LLMOracle) (sid : String) (ivs : List (Option String)) (store : Store)
        (g0 : GameSession),
        store sid = some g0 → g0.agents ≠ [] → g0.turn_count = 0 →
        g0.narrative_history = [] →
        ∃ g, (iterate_turns oracle sid ivs store) sid = some g ∧
          g.turn_count = ivs.length ∧ g.narrative_history.length = ivs.length) ∧
    (∀ (oracle : LLMOracle) (store : Store) (sid : String) (iv : Option String),
        StoreInv store → StoreInv (GameManager.process_turn oracle store sid iv).store) ∧
    (∀ (oracle : LLMOracle) (store : Store) (fid scenario : String),
        StoreInv store → StoreInv (GameManager.create_game oracle store fid scenario).1) := by
  refine ⟨?_, ?_, ?_⟩
  · intro oracle sid ivs store g0 hs hA h0 hh
    obtain ⟨g, hg, hc, hlen, _⟩ := iterate_turns_spec oracle sid ivs store g0 hs hA
    refine ⟨g, hg, ?_, ?_⟩
    · rw [hc, h0, Nat.zero_add]
    · rw [hlen, hh]; simp
  · intro oracle store sid iv hInv
    rcases hcase : store sid with _ | g
    · rw [process_turn_not_found oracle store sid iv hcase]; exact hInv
    · by_cases hA : g.agents = []
      · rw [process_turn_index_error oracle store sid iv g hcase hA]
        exact StoreInv.insert store hInv sid _ (Nat.le_succ_of_le (hInv sid g hcase))
      · obtain ⟨g', prose, a, h1, h2, h3, h4, h5, _⟩ :=
          process_turn_ok_spec oracle store sid iv g hcase hA
        rw [h2]
        refine StoreInv.insert store hInv sid g' ?_
        have hb := hInv sid g hcase
        rw [h4, h5]
        simp only [List.length_append, List.length_cons, List.length_nil]
        omega
  · intro oracle store fid scn hInv
    obtain ⟨hnone, hsome⟩ := create_game_spec oracle store fid scn
    rcases hb : buildCast (oracle.castGen castSysPrompt scn).agents with _ | agents
    · rw [hnone hb]; exact hInv
    · obtain ⟨s, heq, _, _, _, htc, hnh, _⟩ := hsome agents hb
      rw [heq]
      exact StoreInv.insert store hInv fid s (by rw [htc, hnh]; exact Nat.le_refl 0)

/-- C2 witness: three turns against a fresh two-agent session yield a stored
session with `turn_count = 3` and three narrative entries. -/
theorem c2_witness :
    ∃ g, (iterate_turns testOracle "s1" [none, none, none] testStore) "s1" = some g ∧
      g.turn_count = 3 ∧ g.narrative_history.length = 3 := by
  obtain ⟨p1, -, -⟩ := c2_history_append_invariant
  exact p1 testOracle "s1" [none, none, none] testStore testSession (by decide) (by decide)
    rfl rfl

/-- C3: in every completed turn the compactor runs if and only if the
post-increment `turn_count` is divisible by three, and when it runs the new
`plot_summary` is exactly the compactor's output over the full post-append
history (wholesale replacement — the prior summary is not an input of the
joined text and is not kept); otherwise the prior summary is kept verbatim. -/
theorem c3_compaction_cadence (oracle : LLMOracle) (store : Store) (sid : String)
    (iv : Option String) (g : GameSession) (hs : store sid = some g)
    (hA : g.agents ≠ []) :
    ∃ g' prose,
      (GameManager.process_turn oracle store sid iv).outcome = TurnOutcome.ok g' ∧
      g'.narrative_history = g.narrative_history ++ [prose] ∧
      (StageCall.summarizeCall ∈ (GameManager.process_turn oracle store sid iv).calls ↔
        (g.turn_count + 1) % 3 = 0) ∧
      ((g.turn_count + 1) % 3 = 0 →
        g'.plot_summary =
          oracle.summarize sysSumText
            (String.intercalate "\n" (g.narrative_history ++ [prose]))) ∧
      ((g.turn_count + 1) % 3 ≠ 0 → g'.plot_summary = g.plot_summary) := by
  obtain ⟨g', prose, a, h1, h2, h3, h4, h5, h6, h7, h8, h9, h10, h11, h12, h13, h14, h15⟩ :=
    process_turn_ok_spec oracle store sid iv g hs hA
  refine ⟨g', prose, h1, h5, h14, ?_, ?_⟩
  · intro h3z; rw [if_pos h3z] at h13; exact h13
  · intro h3z; rw [if_neg h3z] at h13; exact h13

/-- C3 witness: the third turn of a session (two turns already counted)
fires the compactor, and the summary becomes the compactor output over the
whole three-entry history. -/
theorem c3_witness :
    ∃ g' prose,
      (GameManager.process_turn testOracle preCompactStore "s1" none).outcome =
        TurnOutcome.ok g' ∧
      g'.narrative_history = ["h1", "h2"] ++ [prose] ∧
      g'.plot_summary =
        testOracle.summarize sysSumText
          (String.intercalate "\n" (["h1", "h2"] ++ [prose])) ∧
      StageCall.summarizeCall ∈
        (GameManager.process_turn testOracle preCompactStore "s1" none).calls := by
  obtain ⟨g', prose, h1, h2, h3, h4, h5⟩ :=
    c3_compaction_cadence testOracle preCompactStore "s1" none preCompactSession
      (by decide) (by decide)
  exact ⟨g', prose, h1, h2, h4 (by decide), h3.mpr (by decide)⟩

/-- C4: the context block renders exactly the suffix of the last
`min(length, 3)` narrative entries, joined with a blank-line separator after
the state and summary parts; replacing the history by that suffix leaves the
context unchanged, so no earlier entry ever contributes. -/
theorem c4_context_window (g : GameSession) :
    ∃ recent : List String,
      recent <:+ g.narrative_history ∧
      recent.length = min g.narrative_history.length 3 ∧
      ({ g with narrative_history := recent } : GameSession).get_context_for_llm =
        g.get_context_for_llm ∧
      g.get_context_for_llm =
        "--- STORY STATUS ---\n" ++ g.state.to_string ++ "\n"
          ++ "--- ZUSAMMENFASSUNG ---\n" ++ g.plot_summary ++ "\n"
          ++ "--- AKTUELLE SZENE ---\n" ++ String.intercalate "\n\n" recent := by
  refine ⟨g.narrative_history.drop (g.narrative_history.length - 3),
    List.drop_suffix _ _, ?_, ?_, rfl⟩
  · rw [List.length_drop]; omega
  · have h0 : (g.narrative_history.drop (g.narrative_history.length - 3)).length - 3 = 0 := by
      rw [List.length_drop]; omega
    unfold GameSession.get_context_for_llm
    dsimp only
    rw [h0, List.drop_zero]

/-- C6: with no agents besides the actor, no reaction call is made and the
reaction is empty; otherwise exactly one reaction call is made with the
REACT prompts, and the reaction text is empty when the raw response contains
"PASS" as a substring (infix of the character list) and is the raw response
verbatim otherwise. -/
theorem c6_react_pass_sentinel (oracle : LLMOracle) (game : GameSession)
    (actor : Agent) (action : String) :
    (game.agents.filter (fun x => x.name != actor.name) = [] →
      reactStage oracle game actor action = ("", [])) ∧
    (game.agents.filter (fun x => x.name != actor.name) ≠ [] →
      (reactStage oracle game actor action).2 = [StageCall.reactCall] ∧
      ("PASS".data <:+:
          (oracle.react sysReactText (userReactText actor action
            (game.agents.filter (fun x => x.name != actor.name)))).data →
        (reactStage oracle game actor action).1 = "") ∧
      (¬ "PASS".data <:+:
          (oracle.react sysReactText (userReactText actor action
            (game.agents.filter (fun x => x.name != actor.name)))).data →
        (reactStage oracle game actor action).1 =
          oracle.react sysReactText (userReactText actor action
            (game.agents.filter (fun x => x.name != actor.name))))) := by
  constructor
  · intro h
    unfold reactStage
    simp [h]
  · intro h
    have hb : (game.agents.filter (fun x => x.name != actor.name)).isEmpty = false := by
      simp [List.isEmpty_iff, h]
    unfold reactStage
    simp only [hb, Bool.false_eq_true, reduceIte, if_true, if_false]
    refine ⟨trivial, ?_, ?_⟩
    · intro hin; rw [if_pos hin]
    · intro hin; rw [if_neg hin]

/-- C6 witness: with both agents present, a response that merely contains
"PASS" inside a longer sentence yields an empty reaction and one reaction
call. -/
theorem c6_witness :
    testSession.agents.filter (fun x => x.name != agentA.name) ≠ [] ∧
    (reactStage passOracle testSession agentA "x").1 = "" ∧
    (reactStage passOracle testSession agentA "x").2 = [StageCall.reactCall] := by
  obtain ⟨-, h2⟩ := c6_react_pass_sentinel passOracle testSession agentA "x"
  obtain ⟨hcalls, hpass, -⟩ := h2 (by decide)
  exact ⟨by decide, hpass (by decide), hcalls⟩

/-- C7, counterexample: a delta whose `new_location` is present and non-null
but the empty string is "provided", yet Python's truthiness check skips it —
the location is not overwritten. -/
theorem c7_counterexample :
    ({ new_location := some "" } : GMDelta).new_location = some "" ∧
    (applyGmData {} { new_location := some "" }).location = "Startpunkt" ∧
    ("Startpunkt" : String) ≠ "" := by
  refine ⟨rfl, by decide, by decide⟩

/-- C7 (amended): the UPDATE STATE stage overwrites `location` and
`current_quest` exactly when the corresponding delta field is provided
non-empty (Python truthiness treats a provided empty string like an absent
field); inventory and threats are never changed by any delta; the empty
(malformed-result) delta leaves the whole state unchanged. -/
theorem c7_update_state (st : StoryState) (d : GMDelta) :
    (∀ s, d.new_location = some s → s ≠ "" → (applyGmData st d).location = s) ∧
    ((d.new_location = none ∨ d.new_location = some "") →
      (applyGmData st d).location = st.location) ∧
    (∀ s, d.quest_update = some s → s ≠ "" → (applyGmData st d).current_quest = s) ∧
    ((d.quest_update = none ∨ d.quest_update = some "") →
      (applyGmData st d).current_quest = st.current_quest) ∧
    (applyGmData st d).inventory = st.inventory ∧
    (applyGmData st d).active_threats = st.active_threats ∧
    (d = {} → applyGmData st d = st) := by
  refine ⟨?_, ?_, ?_, ?_, applyGmData_inventory st d, applyGmData_threats st d, ?_⟩
  · intro s hset hne
    have hie := isEmpty_false_of_ne s hne
    rw [applyGmData_location, hset]
    simp [pyTruthy, hie]
  · intro hcase
    rcases hcase with hc | hc <;> rw [applyGmData_location, hc] <;> rfl
  · intro s hset hne
    have hie := isEmpty_false_of_ne s hne
    rw [applyGmData_quest, hset]
    simp [pyTruthy, hie]
  · intro hcase
    rcases hcase with hc | hc <;> rw [applyGmData_quest, hc] <;> rfl
  · intro hd; subst hd
    unfold applyGmData
    simp [pyTruthy]

/-- C7 witness: a non-empty provided location is applied, the quest field
and inventory stay put when absent. -/
theorem c7_witness :
    (applyGmData {} { new_location := some "Wald" }).location = "Wald" ∧
    (applyGmData {} { new_location := some "Wald" }).current_quest = "Erkunde die Welt" ∧
    (applyGmData {} { new_location := some "Wald" }).inventory = [] := by
  obtain ⟨h1, h2, h3, h4, h5, h6, h7⟩ :=
    c7_update_state {} { new_location := some "Wald" }
  exact ⟨h1 "Wald" rfl (by decide), h4 (Or.inl rfl), h5⟩

/-- C8 witness: a session whose single agent is ineligible still gets an
actor (the fallback), and a session with an empty roster ends in the
configuration error. -/
theorem c8_witness :
    (GameManager.process_turn testOracle edgeStore "s2" none).actor = some agentC ∧
    (GameManager.process_turn testOracle edgeStore "s3" none).outcome =
      TurnOutcome.indexError := by
  obtain ⟨hfb, _⟩ :=
    c8_empty_eligibility_fallback testOracle edgeStore "s2" none mentorSession (by decide)
  obtain ⟨hact, _⟩ := hfb (by decide) (by decide)
  obtain ⟨_, hie⟩ :=
    c8_empty_eligibility_fallback testOracle edgeStore "s3" none emptyRosterSession (by decide)
  obtain ⟨ho, _⟩ := hie (by decide)
  refine ⟨?_, ho⟩
  rw [hact]
  decide

/-- Every agent built from a well-formed cast is eligible exactly when its
role is the literal "Protagonist". -/
theorem buildCast_protagonist :
    ∀ (entries : List (Option CastMember)) (agents : List Agent),
      buildCast entries = some agents →
      ∀ a ∈ agents, a.is_active = (a.role == "Protagonist") := by
  intro entries
  induction entries with
  | nil =>
    intro agents h a ha
    simp only [buildCast, Option.some.injEq] at h
    subst h
    simp at ha
  | cons e rest ih =>
    intro agents h a ha
    cases e with
    | none => simp [buildCast] at h
    | some c =>
      simp only [buildCast, Option.map_eq_some'] at h
      obtain ⟨as, hrest, hagents⟩ := h
      subst hagents
      rcases List.mem_cons.mp ha with rfl | hmem
      · rfl
      · exact ih as hrest a hmem

/-- C9, counterexample: a generation failure makes `call_llm` return the
empty object, but `create_game` then builds an empty cast successfully —
a session with no agents is created and registered instead of the
"no session created" signal. -/
theorem c9_counterexample :
    testOracle.castGen castSysPrompt "scn" = ({} : CastData) ∧
    (GameManager.create_game testOracle Store.empty "id0" "scn").2 ≠ none ∧
    (GameManager.create_game testOracle Store.empty "id0" "scn").1 "id0" ≠ none ∧
    ∃ s, (GameManager.create_game testOracle Store.empty "id0" "scn").2 = some s ∧
      s.agents = [] := by
  refine ⟨rfl, by decide, by decide, ?_⟩
  exact ⟨_, rfl, rfl⟩

/-- C9 (amended): `create_game` never raises; it returns the "no session
created" signal — registering nothing — exactly when building the cast from
the structured data raises (a malformed agent entry).  A generation failure
that yields the empty structured object is not treated as a creation
failure: an empty-cast session is registered.  On success the session is
registered under the fresh id with exactly the agents whose role equals
"Protagonist" marked eligible. -/
theorem c9_create_outcomes (oracle : LLMOracle) (store : Store) (fid scenario : String) :
    (buildCast (oracle.castGen castSysPrompt scenario).agents = none →
      (GameManager.create_game oracle store fid scenario).2 = none ∧
      (GameManager.create_game oracle store fid scenario).1 = store) ∧
    (∀ agents, buildCast (oracle.castGen castSysPrompt scenario).agents = some agents →
      ∃ s, (GameManager.create_game oracle store fid scenario).2 = some s ∧
        (GameManager.create_game oracle store fid scenario).1 = store.insert fid s ∧
        (GameManager.create_game oracle store fid scenario).1 fid = some s ∧
        s.agents = agents ∧ s.session_id = fid ∧ s.setting = scenario ∧
        s.turn_count = 0 ∧ s.narrative_history = [] ∧
        s.plot_summary = "Die Geschichte beginnt: " ++ scenario ∧
        (∀ a ∈ s.agents, a.is_active = (a.role == "Protagonist"))) ∧
    (oracle.castGen castSysPrompt scenario = {} →
      ∃ s, (GameManager.create_game oracle store fid scenario).2 = some s ∧
        s.agents = []) := by
  obtain ⟨hnone, hsome⟩ := create_game_spec oracle store fid scenario
  refine ⟨?_, ?_, ?_⟩
  · intro hb
    rw [hnone hb]
    exact ⟨rfl, rfl⟩
  · intro agents hb
    obtain ⟨s, heq, hag, hsid, hsett, htc, hnh, hps, -, -, -⟩ := hsome agents hb
    refine ⟨s, ?_, ?_, ?_, hag, hsid, hsett, htc, hnh, hps, ?_⟩
    · rw [heq]
    · rw [heq]
    · rw [heq]; exact Store.insert_self _ _ _
    · rw [hag]; exact buildCast_protagonist _ _ hb
  · intro hg
    have hb : buildCast (oracle.castGen castSysPrompt scenario).agents = some [] := by
      rw [hg]; rfl
    obtain ⟨s, heq, hag, -⟩ := hsome [] hb
    exact ⟨s, by rw [heq], hag⟩

/-- C9 witness: a well-formed two-member cast (one protagonist, one
antagonist) yields a registered session whose eligibility flags are exactly
[true, false]. -/
theorem c9_witness :
    ∃ s, (GameManager.create_game goodCastOracle Store.empty "id1" "Piratenfahrt").2 =
        some s ∧
      (GameManager.create_game goodCastOracle Store.empty "id1" "Piratenfahrt").1 "id1" =
        some s ∧
      s.agents.map (fun a => a.is_active) = [true, false] ∧
      s.turn_count = 0 := by
  obtain ⟨-, hsome, -⟩ := c9_create_outcomes goodCastOracle Store.empty "id1" "Piratenfahrt"
  obtain ⟨s, h2, -, h3, hag, -, -, htc, -, -, -⟩ := hsome _ rfl
  refine ⟨s, h2, h3, ?_, htc⟩
  rw [hag]
  rfl

/-- C10: the response's `active_actor_name` is the name of the first agent
in roster order whose eligibility flag is set (the fixed fallback string
"Unbekannt" when none is), and it does not depend on `turn_count` — it is
not derived from the rotation, so it need not name the agent that acted in
the most recent turn. -/
theorem c10_active_actor_field (g : GameSession) :
    ((∃ a, a ∈ g.agents ∧ a.is_active = true) →
      ∃ pre a post, g.agents = pre ++ a :: post ∧
        (∀ b ∈ pre, b.is_active = false) ∧ a.is_active = true ∧
        (build_response g).active_actor_name = a.name) ∧
    ((∀ a ∈ g.agents, a.is_active = false) →
      (build_response g).active_actor_name = "Unbekannt") ∧
    (∀ n, (build_response { g with turn_count := n }).active_actor_name =
      (build_response g).active_actor_name) := by
  refine ⟨?_, ?_, fun n => rfl⟩
  · rintro ⟨a0, ha0, hact⟩
    rcases hf : g.agents.find? (fun a => a.is_active) with _ | a
    · exact absurd hact (by simpa using List.find?_eq_none.mp hf a0 ha0)
    · obtain ⟨hpa, as, bs, hsplit, hprev⟩ := List.find?_eq_some.mp hf
      refine ⟨as, a, bs, hsplit, ?_, by simpa using hpa, ?_⟩
      · intro b hb
        simpa using hprev b hb
      · simp [build_response, hf]
  · intro h
    have hf : g.agents.find? (fun a => a.is_active) = none :=
      List.find?_eq_none.mpr (fun x hx => by simp [h x hx])
    simp [build_response, hf]

/-- C10 witness: with both agents eligible the field names the first agent
in roster order, and changing `turn_count` does not change it. -/
theorem c10_witness :
    (∃ pre a post, testSession.agents = pre ++ a :: post ∧
      (∀ b ∈ pre, b.is_active = false) ∧ a.is_active = true ∧
      (build_response testSession).active_actor_name = a.name) ∧
    (build_response { testSession with turn_count := 7 }).active_actor_name =
      (build_response testSession).active_actor_name := by
  obtain ⟨h1, -, h3⟩ := c10_active_actor_field testSession
  exact ⟨h1 ⟨agentA, by decide, by decide⟩, h3 7⟩

end AgenticTale
